import Mathlib

/-!
Verification of the reputation / context / persona / conversation core of
the "Mitya" Telegram bot (src/bot.py), via a shallow embedding in Lean.

Each database table is modelled as a list of rows kept in insertion order;
the SQLite autoincrement id / CURRENT_TIMESTAMP ordering is modelled by
that insertion order.  Fallible storage reads are modelled with `Except`.
-/

/- =========================  Reputation store  ========================= -/

/-- One row of the `users` table: PRIMARY KEY (user_id, chat_id). -/
structure UserRow where
  user_id : Int
  chat_id : Int
  first_name : String
  reputation : Int
deriving Repr, DecidableEq

/-- The `users` table, rows in insertion order. -/
abbrev UsersDB := List UserRow

/-- The SQL expression `MAX(-150, MIN(150, n))` from the upsert in
`update_reputation` (bot.py line 191). -/
def clampRep (n : Int) : Int := max (-150) (min 150 n)

/-- The WHERE / ON CONFLICT key test `user_id = ? AND chat_id = ?`. -/
def matchesKey (user_id chat_id : Int) (r : UserRow) : Bool :=
  r.user_id == user_id && r.chat_id == chat_id

/-- Embeds `update_reputation` (bot.py lines 184-196):
`INSERT INTO users (user_id, chat_id, first_name, reputation) VALUES (?, ?, ?, ?)
 ON CONFLICT(user_id, chat_id) DO UPDATE SET
 reputation = MAX(-150, MIN(150, reputation + ?)), first_name = ?`.
On conflict the existing row gets the clamped sum and the new name; a fresh
insert stores `change` exactly as passed (the VALUES clause has no clamp). -/
def update_reputation (db : UsersDB) (chat_id user_id : Int) (name : String)
    (change : Int) : UsersDB :=
  if (db.find? (matchesKey user_id chat_id)).isSome then
    db.map (fun r =>
      if matchesKey user_id chat_id r then
        { r with reputation := clampRep (r.reputation + change), first_name := name }
      else r)
  else
    db ++ [⟨user_id, chat_id, name, change⟩]

/-- Embeds `get_user_reputation` (bot.py lines 199-206):
`SELECT reputation FROM users WHERE user_id = ? AND chat_id = ?`;
returns `row[0] if row else 0`. -/
def get_user_reputation (db : UsersDB) (chat_id user_id : Int) : Int :=
  match db.find? (matchesKey user_id chat_id) with
  | some r => r.reputation
  | none => 0

/-- A sequence of `update_reputation` calls for one (chat_id, user_id),
each call carrying a display name and a delta. -/
def apply_adjusts (db : UsersDB) (chat_id user_id : Int)
    (calls : List (String × Int)) : UsersDB :=
  calls.foldl (fun acc p => update_reputation acc chat_id user_id p.1 p.2) db

/-- Modelled from the spec: the left-to-right fold of the deltas with
clamping into [-150, 150] applied after each step, starting from 0.
This is the comparison object for the refinement claim about sequences
of adjust calls; the code-side semantics is `apply_adjusts`. -/
def spec_clamped_fold (deltas : List Int) : Int :=
  deltas.foldl (fun s d => clampRep (s + d)) 0

lemma clampRep_bounds (n : Int) : -150 ≤ clampRep n ∧ clampRep n ≤ 150 := by
  unfold clampRep; omega

lemma clampRep_of_bounds (n : Int) (h1 : -150 ≤ n) (h2 : n ≤ 150) :
    clampRep n = n := by
  unfold clampRep; omega

lemma find?_append_none {α} (p : α → Bool) (l1 l2 : List α)
    (h : l1.find? p = none) : (l1 ++ l2).find? p = l2.find? p := by
  induction l1 with
  | nil => rfl
  | cons a as ih =>
    by_cases hpa : p a = true
    · rw [List.find?_cons_of_pos _ hpa] at h
      simp at h
    · rw [List.find?_cons_of_neg _ hpa] at h
      rw [List.cons_append, List.find?_cons_of_neg _ hpa]
      exact ih h

lemma matchesKey_update (u c : Int) (n : String) (d : Int) (r : UserRow) :
    matchesKey u c { r with reputation := clampRep (r.reputation + d), first_name := n }
      = matchesKey u c r := by
  simp [matchesKey]

lemma find?_map_update (db : UsersDB) (u c : Int) (n : String) (d : Int)
    (r : UserRow) (h : db.find? (matchesKey u c) = some r) :
    (db.map (fun x =>
        if matchesKey u c x then
          { x with reputation := clampRep (x.reputation + d), first_name := n }
        else x)).find? (matchesKey u c)
      = some { r with reputation := clampRep (r.reputation + d), first_name := n } := by
  induction db with
  | nil => simp at h
  | cons a as ih =>
    by_cases ha : matchesKey u c a = true
    · rw [List.find?_cons_of_pos _ ha] at h
      injection h with h
      subst h
      rw [List.map_cons, if_pos ha]
      exact List.find?_cons_of_pos _ (by rw [matchesKey_update]; exact ha)
    · rw [List.find?_cons_of_neg _ ha] at h
      rw [List.map_cons, if_neg ha]
      rw [List.find?_cons_of_neg _ ha]
      exact ih h

lemma find?_some_key {db : UsersDB} {u c : Int} {r : UserRow}
    (h : db.find? (matchesKey u c) = some r) : r.user_id = u ∧ r.chat_id = c := by
  have := List.find?_some h
  simp [matchesKey] at this
  exact this

/-- The row visible for the key after one `update_reputation`. -/
lemma update_reputation_find? (db : UsersDB) (c u : Int) (n : String) (d : Int) :
    (update_reputation db c u n d).find? (matchesKey u c) =
      some { user_id := u, chat_id := c, first_name := n,
             reputation := match db.find? (matchesKey u c) with
                           | some r => clampRep (r.reputation + d)
                           | none => d } := by
  unfold update_reputation
  cases h : db.find? (matchesKey u c) with
  | none =>
    simp only [h, Option.isSome_none, Bool.false_eq_true, if_false]
    rw [find?_append_none _ _ _ h]
    simp [List.find?_cons, matchesKey]
  | some r =>
    simp only [h, Option.isSome_some, if_true]
    rw [find?_map_update db u c n d r h]
    obtain ⟨hu, hc⟩ := find?_some_key h
    congr 1
    cases r
    simp_all

lemma get_user_reputation_update (db : UsersDB) (c u : Int) (n : String) (d : Int) :
    get_user_reputation (update_reputation db c u n d) c u =
      match db.find? (matchesKey u c) with
      | some r => clampRep (r.reputation + d)
      | none => d := by
  unfold get_user_reputation
  rw [update_reputation_find?]

lemma apply_adjusts_found (c u : Int) (ps : List (String × Int)) :
    ∀ (db : UsersDB) (r : UserRow), db.find? (matchesKey u c) = some r →
      get_user_reputation (apply_adjusts db c u ps) c u =
        ps.foldl (fun s q => clampRep (s + q.2)) r.reputation := by
  induction ps with
  | nil =>
    intro db r h
    simp [apply_adjusts, get_user_reputation, h]
  | cons p ps ih =>
    intro db r h
    have hstep : apply_adjusts db c u (p :: ps) =
        apply_adjusts (update_reputation db c u p.1 p.2) c u ps := rfl
    rw [hstep]
    have hf := update_reputation_find? db c u p.1 p.2
    rw [h] at hf
    rw [ih _ _ hf]
    rfl

lemma foldl_clamp_bounds (ps : List (String × Int)) :
    ∀ s : Int, -150 ≤ s → s ≤ 150 →
      -150 ≤ ps.foldl (fun s q => clampRep (s + q.2)) s ∧
        ps.foldl (fun s q => clampRep (s + q.2)) s ≤ 150 := by
  induction ps with
  | nil => intro s h1 h2; simpa using ⟨h1, h2⟩
  | cons p ps ih =>
    intro s _ _
    simp only [List.foldl_cons]
    exact ih _ (clampRep_bounds _).1 (clampRep_bounds _).2

/-- Claim C1 (corrected): `update_reputation` upserts a row; if the key is
absent a row is created whose score is the raw delta (no clamp on the
insert path); if present, the score becomes clamp(score + delta) and the
display name is overwritten.  In particular adjust(1, 7, "Ann", -200) on an
empty store followed by get(1, 7) returns -200 (not -150 as claimed). -/
theorem update_reputation_upsert_semantics (db : UsersDB) (c u : Int)
    (n : String) (d : Int) :
    ((update_reputation db c u n d).find? (matchesKey u c) =
      some { user_id := u, chat_id := c, first_name := n,
             reputation := match db.find? (matchesKey u c) with
                           | some r => clampRep (r.reputation + d)
                           | none => d })
    ∧ get_user_reputation (update_reputation [] 1 7 "Ann" (-200)) 1 7 = -200 := by
  exact ⟨update_reputation_find? db c u n d, by decide⟩

/-- Claim C1 counterexample: the claimed scenario
adjust(chat=1, user=7, "Ann", -200) then get(1, 7) does not return -150;
the insert path stores the raw delta, so it returns -200. -/
theorem update_reputation_insert_unclamped :
    get_user_reputation (update_reputation [] 1 7 "Ann" (-200)) 1 7 = -200
    ∧ (-200 : Int) ≠ -150 := by
  decide

/-- Claim C2 (corrected): for a sequence of adjust calls on one
(chat_id, user_id) starting from an empty store, provided the first delta
lies in [-150, 150] (only the update path clamps; the creating insert
stores its delta raw), the stored score equals the left-to-right fold of
the deltas with clamping applied after each step starting from 0, and lies
in [-150, 150].  The empty sequence reads as 0 (absence of a row). -/
theorem reputation_sequence_fold (c u : Int) (p : String × Int)
    (ps : List (String × Int)) (h1 : -150 ≤ p.2) (h2 : p.2 ≤ 150) :
    (get_user_reputation (apply_adjusts [] c u (p :: ps)) c u =
        spec_clamped_fold ((p :: ps).map Prod.snd)
      ∧ -150 ≤ get_user_reputation (apply_adjusts [] c u (p :: ps)) c u
      ∧ get_user_reputation (apply_adjusts [] c u (p :: ps)) c u ≤ 150)
    ∧ get_user_reputation (apply_adjusts [] c u []) c u = 0 := by
  have hfirst : (update_reputation [] c u p.1 p.2).find? (matchesKey u c) =
      some { user_id := u, chat_id := c, first_name := p.1, reputation := p.2 } := by
    have := update_reputation_find? [] c u p.1 p.2
    simpa using this
  have hget : get_user_reputation (apply_adjusts [] c u (p :: ps)) c u =
      ps.foldl (fun s q => clampRep (s + q.2)) p.2 := by
    have hstep : apply_adjusts ([] : UsersDB) c u (p :: ps) =
        apply_adjusts (update_reputation [] c u p.1 p.2) c u ps := rfl
    rw [hstep, apply_adjusts_found c u ps _ _ hfirst]
  refine ⟨⟨?_, ?_, ?_⟩, by simp [apply_adjusts, get_user_reputation]⟩
  · rw [hget]
    unfold spec_clamped_fold
    rw [List.foldl_map]
    simp only [List.foldl_cons, zero_add]
    rw [clampRep_of_bounds p.2 h1 h2]
  · exact hget ▸ (foldl_clamp_bounds ps p.2 h1 h2).1
  · exact hget ▸ (foldl_clamp_bounds ps p.2 h1 h2).2

/-- Witness for `reputation_sequence_fold` at a concrete input. -/
theorem reputation_sequence_fold_witness :
    (-150 ≤ (3 : Int)) ∧ ((3 : Int) ≤ 150) ∧
    ((get_user_reputation (apply_adjusts [] 1 2 [("A", 3), ("B", -7)]) 1 2 =
        spec_clamped_fold ([("A", (3 : Int)), ("B", -7)].map Prod.snd)
      ∧ -150 ≤ get_user_reputation (apply_adjusts [] 1 2 [("A", 3), ("B", -7)]) 1 2
      ∧ get_user_reputation (apply_adjusts [] 1 2 [("A", 3), ("B", -7)]) 1 2 ≤ 150)
    ∧ get_user_reputation (apply_adjusts [] 1 2 []) 1 2 = 0) :=
  ⟨by decide, by decide,
    reputation_sequence_fold 1 2 ("A", 3) [("B", -7)] (by decide) (by decide)⟩

/-- Claim C2 counterexample: the single-call sequence with delta -200 on an
empty store yields a stored score of -200, while the claimed clamped fold
gives -150; the stored score is outside [-150, 150]. -/
theorem reputation_sequence_first_delta_unclamped :
    get_user_reputation (apply_adjusts [] 1 7 [("Ann", -200)]) 1 7 = -200
    ∧ spec_clamped_fold [-200] = -150
    ∧ ¬(-150 ≤ (-200 : Int)) := by
  decide

/- =========================  Chat settings  ========================= -/

/-- One row of the `chats` table: PRIMARY KEY chat_id. -/
structure ChatRow where
  chat_id : Int
  ai_enabled : Int
  voice_enabled : Int
  reply_chance : Int
deriving Repr, DecidableEq

/-- The `chats` table, rows in insertion order. -/
abbrev ChatsDB := List ChatRow

/-- The value returned by `get_chat_settings` (a dict with keys
ai_enabled, voice_enabled, reply_chance). -/
structure ChatSettings where
  ai_enabled : Int
  voice_enabled : Int
  reply_chance : Int
deriving Repr, DecidableEq

/-- Embeds `get_chat_settings` (bot.py lines 149-172).  The SELECT sits in a
try/except: on a storage error the exception is logged and control falls
through; when the row is absent or the read failed, an
`INSERT OR IGNORE` default row is attempted (its own errors also logged)
and the in-memory default `ai_enabled=1, voice_enabled=1, reply_chance=0`
is returned.  The fallible read is modelled by an `Except` argument. -/
def get_chat_settings (store : Except String ChatsDB) (chat_id : Int) :
    ChatSettings :=
  match store with
  | .error _ => ⟨1, 1, 0⟩
  | .ok db =>
    match db.find? (fun r => r.chat_id == chat_id) with
    | some r => ⟨r.ai_enabled, r.voice_enabled, r.reply_chance⟩
    | none => ⟨1, 1, 0⟩

/-- Embeds `get_user_reputation` (bot.py lines 199-206) over a fallible
store.  The body has no try/except, so a storage error raised by the
SELECT propagates to the caller; on success it is `get_user_reputation`. -/
def get_user_reputation_exc (store : Except String UsersDB)
    (chat_id user_id : Int) : Except String Int :=
  match store with
  | .error e => .error e
  | .ok db => .ok (get_user_reputation db chat_id user_id)

/-- The whitelist in `update_setting` (bot.py line 176). -/
def allowed_columns : List String := ["ai_enabled", "voice_enabled", "reply_chance"]

/-- The SQL `UPDATE chats SET {column} = ? WHERE chat_id = ?` applied to a
single row (the column name is interpolated into the statement). -/
def set_chat_column (r : ChatRow) (column : String) (value : Int) : ChatRow :=
  if column = "ai_enabled" then { r with ai_enabled := value }
  else if column = "voice_enabled" then { r with voice_enabled := value }
  else if column = "reply_chance" then { r with reply_chance := value }
  else r

/-- Embeds `update_setting` (bot.py lines 175-181): if the column is not in
`allowed_columns` the function returns before touching the database;
otherwise it updates the given column of the matching chat row. -/
def update_setting (db : ChatsDB) (chat_id : Int) (column : String)
    (value : Int) : ChatsDB :=
  if column ∈ allowed_columns then
    db.map (fun r => if r.chat_id == chat_id then set_chat_column r column value else r)
  else db

/-- Claim C10 (confirmed): for every chat_id, value and column name outside
the whitelist, `update_setting` is a no-op: it returns with the table
unchanged; only ai_enabled, voice_enabled and reply_chance are writable. -/
theorem update_setting_whitelist_noop (db : ChatsDB) (chat_id : Int)
    (column : String) (value : Int) (h : column ∉ allowed_columns) :
    update_setting db chat_id column value = db := by
  unfold update_setting
  rw [if_neg h]

/-- Witness for `update_setting_whitelist_noop` at a concrete input. -/
theorem update_setting_whitelist_noop_witness :
    ("reputation" ∉ allowed_columns)
    ∧ update_setting [⟨1, 1, 1, 0⟩] 1 "reputation" 99 = [⟨1, 1, 1, 0⟩] :=
  ⟨by decide, update_setting_whitelist_noop [⟨1, 1, 1, 0⟩] 1 "reputation" 99 (by decide)⟩

/-- Claim C8 counterexample: a storage error during the reputation read is
not recovered: `get_user_reputation` has no exception handler, so the
error propagates instead of the claimed in-memory default 0. -/
theorem get_user_reputation_error_propagates :
    get_user_reputation_exc (Except.error "db locked") 1 7 ≠ Except.ok 0
    ∧ get_user_reputation_exc (Except.error "db locked") 1 7
        = Except.error "db locked" := by
  constructor
  · intro h
    simp [get_user_reputation_exc] at h
  · rfl

/-- Claim C8 (corrected): `get(chat_id, user_id)` returns the stored score,
or 0 when no row exists, and a storage error during a settings
read-or-create is logged and the in-memory default (enabled/enabled/0) is
returned; but a storage error during a reputation read propagates to the
caller instead of yielding the default 0. -/
theorem read_defaults_and_error_paths :
    (∀ (db : UsersDB) (c u : Int), db.find? (matchesKey u c) = none →
        get_user_reputation db c u = 0)
    ∧ (∀ (db : UsersDB) (c u : Int) (r : UserRow),
        db.find? (matchesKey u c) = some r →
        get_user_reputation db c u = r.reputation)
    ∧ (∀ (e : String) (c : Int), get_chat_settings (.error e) c = ⟨1, 1, 0⟩)
    ∧ (∀ (db : ChatsDB) (c : Int), db.find? (fun r => r.chat_id == c) = none →
        get_chat_settings (.ok db) c = ⟨1, 1, 0⟩)
    ∧ (∀ (e : String) (c u : Int),
        get_user_reputation_exc (.error e) c u = .error e) := by
  refine ⟨?_, ?_, ?_, ?_, ?_⟩
  · intro db c u h; simp [get_user_reputation, h]
  · intro db c u r h; simp [get_user_reputation, h]
  · intro e c; rfl
  · intro db c h; simp [get_chat_settings, h]
  · intro e c u; rfl

/-- Witness for `read_defaults_and_error_paths` at concrete inputs. -/
theorem read_defaults_and_error_paths_witness :
    (([] : UsersDB).find? (matchesKey 7 1) = none)
    ∧ get_user_reputation [] 1 7 = 0
    ∧ get_chat_settings (.error "disk error") 5 = ⟨1, 1, 0⟩
    ∧ get_user_reputation_exc (.error "disk error") 1 7 = .error "disk error" :=
  ⟨by decide,
   (read_defaults_and_error_paths).1 [] 1 7 (by decide),
   (read_defaults_and_error_paths).2.2.1 "disk error" 5,
   (read_defaults_and_error_paths).2.2.2.2 "disk error" 1 7⟩

/- =========================  Context store  ========================= -/

/-- The last `n` entries of a list (SQL: the `n` rows with the largest
timestamps, returned in ascending order). -/
def keepLast {α} (n : Nat) (l : List α) : List α := l.drop (l.length - n)

/-- The Context Store: for each chat_id, its rows of the `messages` table
as (role, content) pairs in insertion (timestamp) order. -/
abbrev MessagesDB := Int → List (String × String)

/-- Embeds `save_context` (bot.py lines 209-229): a user message with a
user name is stored as "От пользователя {name}: {content}"; the row is
inserted, then all rows of the chat except the 20 most recent are deleted
(`DELETE ... WHERE id NOT IN (SELECT ... ORDER BY timestamp DESC LIMIT 20)`). -/
def save_context (st : MessagesDB) (chat_id : Int) (role content : String)
    (user_name : Option String) : MessagesDB :=
  let final_content :=
    if role = "user" ∧ user_name.getD "" ≠ "" then
      "От пользователя " ++ user_name.getD "" ++ ": " ++ content
    else content
  fun c => if c = chat_id then keepLast 20 (st chat_id ++ [(role, final_content)])
           else st c

/-- Embeds `get_context` (bot.py lines 232-240):
`SELECT role, content FROM messages WHERE chat_id = ?
 ORDER BY timestamp ASC LIMIT 15` — the first 15 retained rows in
ascending timestamp order. -/
def get_context (st : MessagesDB) (chat_id : Int) : List (String × String) :=
  (st chat_id).take 15

/-- The messages table before any insert. -/
def empty_messages : MessagesDB := fun _ => []

/-- A sequence of `save_context` calls appending user messages (no name
annotation) to one chat. -/
def append_all (st : MessagesDB) (chat_id : Int) (cs : List String) :
    MessagesDB :=
  cs.foldl (fun acc c => save_context acc chat_id "user" c none) st

lemma keepLast_append_keepLast {α} (n : Nat) (l l2 : List α) :
    keepLast n (keepLast n l ++ l2) = keepLast n (l ++ l2) := by
  unfold keepLast
  have h : l.length - n ≤ l.length := Nat.sub_le _ _
  rw [← List.drop_append_of_le_length h, List.drop_drop]
  congr 1
  simp only [List.length_drop, List.length_append]
  omega

lemma save_context_user_at (st : MessagesDB) (chat : Int) (c : String) :
    (save_context st chat "user" c none) chat
      = keepLast 20 (st chat ++ [("user", c)]) := by
  simp [save_context]

lemma append_all_empty (chat : Int) (cs : List String) :
    (append_all empty_messages chat cs) chat
      = keepLast 20 (cs.map (fun c => ("user", c))) := by
  induction cs using List.reverseRecOn with
  | nil => simp [append_all, empty_messages, keepLast]
  | append_singleton cs c ih =>
    have hstep : append_all empty_messages chat (cs ++ [c])
        = save_context (append_all empty_messages chat cs) chat "user" c none := by
      unfold append_all
      rw [List.foldl_append]
      rfl
    rw [hstep, save_context_user_at, ih, keepLast_append_keepLast]
    simp

/-- Claim C3 (corrected): after any sequence of appends to one chat the
store retains the 20 most recently appended rows, and `get_context`
returns the oldest 15 of those retained rows (not the 20 most recent as
claimed), in ascending creation order, never more than 15 entries. -/
theorem context_store_bound_and_window (chat : Int) (cs : List String) :
    get_context (append_all empty_messages chat cs) chat
      = ((cs.map (fun c => ("user", c))).drop (cs.length - 20)).take 15
    ∧ (get_context (append_all empty_messages chat cs) chat).length ≤ 15 := by
  constructor
  · simp [get_context, append_all_empty, keepLast, List.length_map]
  · exact List.length_take_le _ _

/-- The 30 message bodies "m1" .. "m30" of the appended-30 scenario. -/
def thirty_messages : List String := (List.range 30).map (fun i => "m" ++ toString (i + 1))

/-- Claim C3 counterexample: appending 30 messages to chat 5 leaves
`get_context` with 15 entries, not the claimed 20; its first element is
the 11th appended message (the store keeps messages 11-30, the read
returns the oldest 15 of them, namely messages 11-25). -/
theorem context_recent_returns_15_not_20 :
    (get_context (append_all empty_messages 5 thirty_messages) 5).length = 15
    ∧ (15 : Nat) ≠ 20
    ∧ (get_context (append_all empty_messages 5 thirty_messages) 5).head?
        = some ("user", "m11") := by
  decide

/- =================  Reputation-to-persona resolver  ================= -/

/-- The fixed (threshold, instruction) table `REP_ADVICE`
(bot.py lines 345-358), ordered from highest threshold to lowest. -/
def REP_ADVICE : List (Int × String) := [
  (120, "Собеседник — Легенда Двора, твой старший брат. Впрягайся за него в любой кипиш, проявляй максимальное уважение и преданность."),
  (100, "Собеседник — Авторитет. Жми руку крепко, общайся с уважением, не перебивай."),
  (80,  "Собеседник — твой близкий кореш. Общайся по-братски, тепло, поддерживай, шути по-доброму."),
  (60,  "Собеседник — свой пацан. Нормальный диалог, можно расслабиться."),
  (40,  "Собеседник — ровный тип. Общайся спокойно, как с нормальным пацаном."),
  (10,  "Собеседник — просто прохожий. Общайся нормально, но без лишней любезности."),
  (0,   "Собеседник нейтральный. Отвечай коротко и по делу, в своем стиле."),
  (-10, "Собеседник — мутный тип. Держи ухо востро, отвечай с холодком."),
  (-40, "Собеседник — чушпан. Разговаривай свысока, можешь слегка подколоть или осадить."),
  (-60, "Собеседник — борзый. Не давай ему спуску, отвечай дерзко, ставь на место."),
  (-80, "Собеседник — черт. Наезжай на него, груби, поясняй, что он не прав. Никакого уважения."),
  (-100, "Собеседник — твой враг и крыса. Гноби его, унижай морально, смешивай с грязью. Никакой пощады.")]

/-- The default set before the scan (bot.py line 403). -/
def neutral_advice : String := "Относись нейтрально."

/-- Embeds the scan loop of bot.py lines 403-407: `extra_info`
defaults to the neutral instruction; the first table entry whose
threshold the reputation meets or exceeds wins (`break`). -/
def advice_for (rep : Int) : String :=
  match REP_ADVICE.find? (fun p => decide (rep ≥ p.1)) with
  | some p => p.2
  | none => neutral_advice

/-- Claim C5 (confirmed): `advice_for` is total on the integers, scanning
the table from highest threshold to lowest and returning the first
instruction whose threshold the score meets, with the neutral floor
instruction below every threshold; on [-1000, 1000] the result is always
a non-empty instruction, and advice_for(250) = advice_for(120). -/
theorem advice_for_total_nonempty :
    (∀ s : Int, -1000 ≤ s → s ≤ 1000 → advice_for s ≠ "")
    ∧ advice_for 250 = advice_for 120
    ∧ (∀ s : Int, s < -100 → advice_for s = neutral_advice) := by
  refine ⟨?_, by decide, ?_⟩
  · intro s _ _
    unfold advice_for
    cases h : REP_ADVICE.find? (fun p => decide (s ≥ p.1)) with
    | none => simp [neutral_advice]
    | some p =>
      have hmem : p ∈ REP_ADVICE := List.mem_of_find?_eq_some h
      fin_cases hmem <;> simp
  · intro s hs
    unfold advice_for
    have h : REP_ADVICE.find? (fun p => decide (s ≥ p.1)) = none := by
      rw [List.find?_eq_none]
      intro p hp
      fin_cases hp <;> simp <;> omega
    rw [h]

/-- Witness for `advice_for_total_nonempty` at concrete inputs. -/
theorem advice_for_total_nonempty_witness :
    (-1000 ≤ (0 : Int)) ∧ ((0 : Int) ≤ 1000) ∧ advice_for 0 ≠ ""
    ∧ ((-500 : Int) < -100) ∧ advice_for (-500) = neutral_advice :=
  ⟨by decide, by decide,
   (advice_for_total_nonempty).1 0 (by decide) (by decide),
   by decide,
   (advice_for_total_nonempty).2.2 (-500) (by decide)⟩

/- =====================  Sentiment classifier  ===================== -/

/-- Python `str.strip()`: drop leading and trailing whitespace. -/
def py_strip (s : String) : String :=
  String.mk (((s.toList.dropWhile Char.isWhitespace).reverse.dropWhile
    Char.isWhitespace).reverse)

/-- Numeric value of a digit run. -/
def digitsVal (cs : List Char) : Nat :=
  cs.foldl (fun a c => a * 10 + (c.toNat - 48)) 0

/-- The regex search `re.search(r'-?\d+', s)` of bot.py line 336: the
leftmost match of an optional minus sign followed by digits, as an
integer.  At a position, a bare minus not followed by a digit does not
match (the optional sign backtracks to empty and `\d+` still fails). -/
def firstIntToken : List Char → Option Int
  | [] => none
  | c :: rest =>
    if c.isDigit then
      some (Int.ofNat (digitsVal ((c :: rest).takeWhile Char.isDigit)))
    else if c = '-' then
      match rest with
      | [] => none
      | r :: tail =>
        if r.isDigit then
          some (-(Int.ofNat (digitsVal ((r :: tail).takeWhile Char.isDigit))))
        else firstIntToken (r :: tail)
    else firstIntToken rest

/-- The clamp `max(-5, min(5, n))` of bot.py line 338. -/
def clamp5 (n : Int) : Int := max (-5) (min 5 n)

/-- Embeds `check_toxicity_llm` (bot.py lines 303-342).  The outer
`Option` is the request outcome: `none` models any raised exception
(transport error, timeout, JSON decode failure), caught by the
`except` and scored 0.  The inner `Option String` is the "response"
field of the JSON (`resp_json.get("response") or ""` treats a missing
field as ""); the stripped text is searched for the first signed
integer, which is clamped to [-5, 5]; no match scores 0. -/
def check_toxicity_llm (outcome : Option (Option String)) : Int :=
  match outcome with
  | none => 0
  | some response_field =>
    match firstIntToken (py_strip (response_field.getD "")).toList with
    | some n => clamp5 n
    | none => 0

/-- Claim C7 (confirmed): `check_toxicity_llm` always returns an integer
in [-5, 5]; it is the first signed integer token of the response clamped
to [-5, 5]; a transport failure scores 0 and a response with no parseable
integer scores 0 (and the function is total, so it never raises). -/
theorem check_toxicity_llm_spec :
    (∀ o, -5 ≤ check_toxicity_llm o ∧ check_toxicity_llm o ≤ 5)
    ∧ check_toxicity_llm none = 0
    ∧ (∀ s : String, firstIntToken (py_strip s).toList = none →
        check_toxicity_llm (some (some s)) = 0)
    ∧ (∀ (s : String) (n : Int), firstIntToken (py_strip s).toList = some n →
        check_toxicity_llm (some (some s)) = clamp5 n) := by
  refine ⟨?_, rfl, ?_, ?_⟩
  · intro o
    rcases o with _ | rf
    · exact ⟨by decide, by decide⟩
    · unfold check_toxicity_llm
      dsimp only
      cases firstIntToken (py_strip (rf.getD "")).toList with
      | none => exact ⟨by decide, by decide⟩
      | some n => dsimp only; unfold clamp5; omega
  · intro s h
    unfold check_toxicity_llm
    simp only [Option.getD_some]
    rw [h]
  · intro s n h
    unfold check_toxicity_llm
    simp only [Option.getD_some]
    rw [h]

/-- Witness for `check_toxicity_llm_spec` at concrete inputs: the failure
response "I don't know" has no integer token and scores 0; a response
"Оценка: -7" scores the clamped -5. -/
theorem check_toxicity_llm_spec_witness :
    (-5 ≤ check_toxicity_llm none ∧ check_toxicity_llm none ≤ 5)
    ∧ check_toxicity_llm (some (some "I do not know")) = 0
    ∧ check_toxicity_llm (some (some "Оценка: -7")) = clamp5 (-7) :=
  ⟨(check_toxicity_llm_spec).1 none,
   (check_toxicity_llm_spec).2.2.1 "I do not know" (by decide),
   (check_toxicity_llm_spec).2.2.2 "Оценка: -7" (-7) (by decide)⟩
/- =====================  Conversation engine  ===================== -/

/-- The two JSON response shapes the completion endpoint may use
(bot.py lines 459-465): a nested message.content field or a flat
response field; either may be absent. -/
structure OllamaResp where
  message_content : Option String
  response : Option String
deriving Repr, DecidableEq

/-- The reply extraction of bot.py lines 460-466:
`(resp_json.get("message") or {}).get("content", "") or
 resp_json.get("response", "")`, then `(reply or "").strip()`. -/
def extractReply (r : OllamaResp) : String :=
  py_strip (if r.message_content.getD "" ≠ "" then r.message_content.getD ""
            else r.response.getD "")

/-- The fixed graceful-degradation phrase of bot.py line 474. -/
def fallback_phrase : String := "Чет я притормозил, голова пустая..."

/-- The fixed persona framing of bot.py lines 410-417. -/
def base_prompt (user_name : String) : String :=
  "Ты — Митя, дерзкий пацан. Сейчас говоришь с: " ++ user_name ++ ". " ++
  "Твои правила:\n1. Краткость (1-2 предложения).\n2. Сленг (слышь, ровно, от души).\n3. Не веди себя как робот.\nИНСТРУКЦИЯ ПО ОТНОШЕНИЮ К ЧЕЛОВЕКУ: "

/-- The self-initiated-reply directive of bot.py line 431. -/
def auto_suffix : String := " Ты сам влез в разговор без спроса. Будь краток и остроумен."

/-- Result of one `ask_mitya_ai` turn: the returned reply text, the
Context Store after the turn, and the messages payload submitted to the
chat-completion endpoint. -/
structure AskResult where
  reply : String
  ctx : MessagesDB
  messages : List (String × String)

/-- Embeds `ask_mitya_ai` (bot.py lines 387-474):
1. save the user turn (name-annotated) to the Context Store;
2. fetch the history via `get_context`;
3. read the reputation when a user_id is given (the code reads it twice
   and resolves the same table entry both times; modelled once);
4. if `reply_to_text` is truthy, append it to the history as an
   assistant turn (`history.append`, bot.py lines 399-400);
5. resolve the attitude instruction, add the auto-reply directive when
   `is_auto`, and prepend the system turn to the history;
6. submit; on success with a non-empty extracted reply, save the
   assistant turn and return the reply; on any exception or an empty
   reply, return the fixed fallback phrase.
The completion call outcome is the `llm` argument: `none` models a
raised exception (timeout, non-success status, connection error). -/
def mitya_rep (users : UsersDB) (chat_id : Int) (user_id : Option Int) : Int :=
  match user_id with
  | some uid => get_user_reputation users chat_id uid
  | none => 0

/-- The history list the payload carries (steps 2, 4 and 5 above): the
system turn, then the fetched context, then — when `reply_to_text` is
truthy — the replied-to text appended as an assistant turn. -/
def mitya_messages (ctx : MessagesDB) (users : UsersDB) (chat_id : Int)
    (user_text : String) (user_id : Option Int) (user_name : String)
    (reply_to_text : Option String) (is_auto : Bool) : List (String × String) :=
  ("system", base_prompt user_name ++
      (if is_auto then advice_for (mitya_rep users chat_id user_id) ++ auto_suffix
       else advice_for (mitya_rep users chat_id user_id))) ::
  (if reply_to_text.getD "" ≠ "" then
      get_context (save_context ctx chat_id "user" user_text (some user_name)) chat_id
        ++ [("assistant", reply_to_text.getD "")]
    else get_context (save_context ctx chat_id "user" user_text (some user_name)) chat_id)

def ask_mitya_ai (ctx : MessagesDB) (users : UsersDB) (chat_id : Int)
    (user_text : String) (user_id : Option Int) (user_name : String)
    (reply_to_text : Option String) (is_auto : Bool)
    (llm : Option OllamaResp) : AskResult :=
  match llm with
  | none =>
    ⟨fallback_phrase, save_context ctx chat_id "user" user_text (some user_name),
     mitya_messages ctx users chat_id user_text user_id user_name reply_to_text is_auto⟩
  | some r =>
    if extractReply r ≠ "" then
      ⟨extractReply r,
       save_context (save_context ctx chat_id "user" user_text (some user_name))
         chat_id "assistant" (extractReply r) none,
       mitya_messages ctx users chat_id user_text user_id user_name reply_to_text is_auto⟩
    else
      ⟨fallback_phrase, save_context ctx chat_id "user" user_text (some user_name),
       mitya_messages ctx users chat_id user_text user_id user_name reply_to_text is_auto⟩

lemma keepLast_getLast? {α} (n : Nat) (hn : 1 ≤ n) (l : List α) (x : α) :
    (keepLast n (l ++ [x])).getLast? = some x := by
  unfold keepLast
  have h : (l ++ [x]).length - n ≤ l.length := by
    simp only [List.length_append, List.length_cons, List.length_nil]
    omega
  rw [List.drop_append_of_le_length h, List.getLast?_concat]

lemma save_context_at (st : MessagesDB) (chat : Int)
    (role content : String) (uname : Option String) :
    (save_context st chat role content uname) chat
      = keepLast 20 (st chat ++
          [(role, if role = "user" ∧ uname.getD "" ≠ "" then
                    "От пользователя " ++ uname.getD "" ++ ": " ++ content
                  else content)]) := by
  simp [save_context]

lemma save_context_getLast? (st : MessagesDB) (chat : Int)
    (role content : String) (uname : Option String) :
    ((save_context st chat role content uname) chat).getLast?
      = some (role, if role = "user" ∧ uname.getD "" ≠ "" then
                      "От пользователя " ++ uname.getD "" ++ ": " ++ content
                    else content) := by
  rw [save_context_at]
  exact keepLast_getLast? 20 (by decide) _ _

/-- Claim C4 (corrected): when `reply_to_text` is supplied (and non-empty),
the assembled history submitted to the completion endpoint contains the
replied-to text as an assistant-attributed turn, but appended as the LAST
entry of the history — after the new user turn, not before it. -/
theorem reply_context_appended_last (ctx : MessagesDB) (users : UsersDB)
    (chat_id : Int) (user_text : String) (user_id : Option Int)
    (user_name : String) (t : String) (is_auto : Bool)
    (llm : Option OllamaResp) (h : t ≠ "") :
    (ask_mitya_ai ctx users chat_id user_text user_id user_name (some t)
        is_auto llm).messages.getLast? = some ("assistant", t) := by
  have hc : ((some t).getD "" ≠ "") := by simpa using h
  have hmsg : (mitya_messages ctx users chat_id user_text user_id user_name
      (some t) is_auto).getLast? = some ("assistant", t) := by
    unfold mitya_messages
    rw [if_pos hc, ← List.cons_append, List.getLast?_concat]
    rfl
  unfold ask_mitya_ai
  cases llm with
  | none => exact hmsg
  | some r =>
    dsimp only
    by_cases hr : extractReply r ≠ ""
    · rw [if_pos hr]
      exact hmsg
    · rw [if_neg hr]
      exact hmsg

/-- Witness for `reply_context_appended_last` at a concrete input. -/
theorem reply_context_appended_last_witness :
    ("ранее" ≠ "")
    ∧ (ask_mitya_ai empty_messages [] 1 "привет" none "Вася" (some "ранее")
        false none).messages.getLast? = some ("assistant", "ранее") :=
  ⟨by decide,
   reply_context_appended_last empty_messages [] 1 "привет" none "Вася"
     "ранее" false none (by decide)⟩

/-- Claim C4 counterexample: with an empty store, a user turn and a
supplied reply context, the submitted history places the new user turn at
index 1 and the replied-to assistant turn at index 2 — the replied-to
context appears AFTER the user turn it responds to, not before it. -/
theorem reply_context_after_user_turn :
    (ask_mitya_ai empty_messages [] 1 "привет" none "Вася" (some "ранее")
        false none).messages.indexOf ("user", "От пользователя Вася: привет") = 1
    ∧ (ask_mitya_ai empty_messages [] 1 "привет" none "Вася" (some "ранее")
        false none).messages.indexOf ("assistant", "ранее") = 2
    ∧ (ask_mitya_ai empty_messages [] 1 "привет" none "Вася" (some "ранее")
        false none).messages.length = 3 := by
  decide

/-- Claim C6 (confirmed): when the completion call raises (timeout,
non-success status, connection error) or the extracted reply is empty,
`ask_mitya_ai` returns the fixed fallback phrase (it is a total function,
so nothing propagates to the caller), the Context Store equals the state
right after the user turn was appended — so the user turn is recorded and
no assistant turn is appended. -/
theorem ask_mitya_ai_fallback (ctx : MessagesDB) (users : UsersDB)
    (chat_id : Int) (user_text : String) (user_id : Option Int)
    (user_name : String) (reply_to_text : Option String) (is_auto : Bool) :
    ((ask_mitya_ai ctx users chat_id user_text user_id user_name
        reply_to_text is_auto none).reply = fallback_phrase
      ∧ (ask_mitya_ai ctx users chat_id user_text user_id user_name
          reply_to_text is_auto none).ctx
        = save_context ctx chat_id "user" user_text (some user_name)
      ∧ ((ask_mitya_ai ctx users chat_id user_text user_id user_name
          reply_to_text is_auto none).ctx chat_id).getLast?
        = some ("user", if user_name ≠ "" then
            "От пользователя " ++ user_name ++ ": " ++ user_text else user_text))
    ∧ (∀ r : OllamaResp, extractReply r = "" →
        (ask_mitya_ai ctx users chat_id user_text user_id user_name
            reply_to_text is_auto (some r)).reply = fallback_phrase
        ∧ (ask_mitya_ai ctx users chat_id user_text user_id user_name
            reply_to_text is_auto (some r)).ctx
          = save_context ctx chat_id "user" user_text (some user_name)) := by
  constructor
  · refine ⟨rfl, rfl, ?_⟩
    have := save_context_getLast? ctx chat_id "user" user_text (some user_name)
    simpa using this
  · intro r hr
    unfold ask_mitya_ai
    dsimp only
    rw [if_neg (by simp [hr])]
    exact ⟨rfl, rfl⟩

/-- Witness for `ask_mitya_ai_fallback` at a concrete input: a response
whose content field is empty and whose flat response field is whitespace
extracts to the empty reply. -/
theorem ask_mitya_ai_fallback_witness :
    extractReply ⟨some "", some "  "⟩ = ""
    ∧ ((ask_mitya_ai empty_messages [] 1 "привет" none "Вася" none false
          (some ⟨some "", some "  "⟩)).reply = fallback_phrase
      ∧ (ask_mitya_ai empty_messages [] 1 "привет" none "Вася" none false
          (some ⟨some "", some "  "⟩)).ctx
        = save_context empty_messages 1 "user" "привет" (some "Вася")) :=
  ⟨by decide,
   (ask_mitya_ai_fallback empty_messages [] 1 "привет" none "Вася" none
      false).2 ⟨some "", some "  "⟩ (by decide)⟩

/- ===================  Per-chat concurrency model  =================== -/

/-- The atomic suspension points of one `ask_mitya_ai` turn, in program
order (bot.py lines 387-474): the user-turn append (line 390), the
context fetch (line 393), the reputation read (lines 396-397, 420-428),
then — inside `async with get_chat_lock(chat_id)` (lines 450-451) — the
completion call (start and end of the awaited HTTP request, line 454)
and the assistant-turn append (line 469), then the lock release. -/
inductive TurnEv where
  | saveUser | getCtx | getRep | acq | callStart | callEnd | saveAssist | rel
deriving Repr, DecidableEq

/-- Program order of one turn. -/
def turn_program : List TurnEv :=
  [.saveUser, .getCtx, .getRep, .acq, .callStart, .callEnd, .saveAssist, .rel]

/-- Two concurrent turns for the same chat_id: how many events of each
turn have executed, and who holds the per-chat `asyncio.Lock`
(`get_chat_lock`, bot.py lines 52-57); `none` means the lock is free. -/
structure SchedState where
  k0 : Nat
  k1 : Nat
  lock : Option Bool
deriving Repr, DecidableEq

def init_state : SchedState := ⟨0, 0, none⟩

/-- One scheduling step: turn `t` executes its next event if it has one
and is not blocked on the lock.  `acq` requires the lock to be free;
`rel` requires `t` to hold it (the `async with` discipline). -/
def step (s : SchedState) (t : Bool) : Option (TurnEv × SchedState) :=
  match turn_program.get? (if t then s.k1 else s.k0) with
  | none => none
  | some e =>
    match e with
    | .acq =>
      if s.lock = none then
        some (e, if t then { s with k1 := s.k1 + 1, lock := some t }
                 else { s with k0 := s.k0 + 1, lock := some t })
      else none
    | .rel =>
      if s.lock = some t then
        some (e, if t then { s with k1 := s.k1 + 1, lock := none }
                 else { s with k0 := s.k0 + 1, lock := none })
      else none
    | _ =>
      some (e, if t then { s with k1 := s.k1 + 1 } else { s with k0 := s.k0 + 1 })

/-- Execute a schedule (a list of turn choices); `none` when the schedule
asks a finished or lock-blocked turn to run.  Returns the final state and
the interleaved event trace. -/
def run : SchedState → List Bool → Option (SchedState × List (Bool × TurnEv))
  | s, [] => some (s, [])
  | s, t :: ts =>
    match step s t with
    | none => none
    | some (e, s1) =>
      match run s1 ts with
      | none => none
      | some (s2, tr) => some (s2, (t, e) :: tr)

/-- Lock-state invariant: a turn holds the lock exactly while its next
pending event lies strictly between `acq` and `rel` (4 ≤ k ≤ 7 events
consumed). -/
def lockInv (s : SchedState) : Prop :=
  s.k0 ≤ 8 ∧ s.k1 ≤ 8
  ∧ (s.lock = some false ↔ (4 ≤ s.k0 ∧ s.k0 ≤ 7))
  ∧ (s.lock = some true ↔ (4 ≤ s.k1 ∧ s.k1 ≤ 7))

lemma step_lockInv (s s1 : SchedState) (t : Bool) (e : TurnEv)
    (hI : lockInv s) (h : step s t = some (e, s1)) : lockInv s1 := by
  obtain ⟨k0, k1, lock⟩ := s
  obtain ⟨hk0, hk1, hl0, hl1⟩ := hI
  simp only at hk0 hk1 hl0 hl1
  cases t with
  | false =>
    rcases lock with _ | b
    · interval_cases k0 <;>
        first
          | (simp [step, turn_program] at h
             obtain ⟨rfl, rfl⟩ := h
             simp [lockInv] at * <;> omega)
          | simp [step, turn_program] at h
    · cases b <;>
        interval_cases k0 <;>
          first
            | (simp [step, turn_program] at h
               obtain ⟨rfl, rfl⟩ := h
               simp [lockInv] at * <;> omega)
            | simp [step, turn_program] at h
  | true =>
    rcases lock with _ | b
    · interval_cases k1 <;>
        first
          | (simp [step, turn_program] at h
             obtain ⟨rfl, rfl⟩ := h
             simp [lockInv] at * <;> omega)
          | simp [step, turn_program] at h
    · cases b <;>
        interval_cases k1 <;>
          first
            | (simp [step, turn_program] at h
               obtain ⟨rfl, rfl⟩ := h
               simp [lockInv] at * <;> omega)
            | simp [step, turn_program] at h

lemma run_lockInv (sched : List Bool) :
    ∀ (s s1 : SchedState) (tr : List (Bool × TurnEv)),
      lockInv s → run s sched = some (s1, tr) → lockInv s1 := by
  induction sched with
  | nil =>
    intro s s1 tr hI h
    simp [run] at h
    rw [← h.1]
    exact hI
  | cons t ts ih =>
    intro s s1 tr hI h
    unfold run at h
    split at h
    · exact absurd h (by simp)
    · rename_i e s2 hs
      split at h
      · exact absurd h (by simp)
      · rename_i s3 tr2 hr
        simp only [Option.some.injEq, Prod.mk.injEq] at h
        obtain ⟨rfl, rfl⟩ := h
        exact ih s2 _ tr2 (step_lockInv s s2 t e hI hs) hr

/-- Claim C9 (corrected): the per-chat lock serializes the completion
call — in every reachable state of two concurrent turns for the same
chat_id, at most one turn is between `callStart` and `callEnd` (has
consumed exactly 5 events), i.e. at most one completion call is in
flight.  The context append / read and the reputation read, however,
happen before the lock is acquired and are NOT serialized (see the
interleaving counterexample). -/
theorem per_chat_call_mutual_exclusion (sched : List Bool) (s1 : SchedState)
    (tr : List (Bool × TurnEv)) (h : run init_state sched = some (s1, tr)) :
    ¬(s1.k0 = 5 ∧ s1.k1 = 5) := by
  have hI : lockInv s1 := run_lockInv sched init_state s1 tr
    (by simp [lockInv, init_state]) h
  rintro ⟨h0, h1⟩
  obtain ⟨_, _, hl0, hl1⟩ := hI
  have e0 : s1.lock = some false := hl0.mpr (by omega)
  have e1 : s1.lock = some true := hl1.mpr (by omega)
  rw [e0] at e1
  exact absurd e1 (by simp)

/-- Witness for `per_chat_call_mutual_exclusion`: the schedule that runs
turn 0 up to its in-flight call reaches state ⟨5, 0, lock held by 0⟩. -/
theorem per_chat_call_mutual_exclusion_witness :
    ¬((SchedState.mk 5 0 (some false)).k0 = 5
      ∧ (SchedState.mk 5 0 (some false)).k1 = 5) :=
  per_chat_call_mutual_exclusion [false, false, false, false, false]
    (SchedState.mk 5 0 (some false))
    [(false, .saveUser), (false, .getCtx), (false, .getRep), (false, .acq),
     (false, .callStart)] (by decide)

/-- Claim C9 counterexample: a valid execution of two concurrent turns
for the same chat in which turn 1 performs its context append and context
read strictly between turn 0 events (turn 0 starts at trace position 0
and completes at position 9) — the Context Store operations of distinct
turns DO interleave; only the completion call and the assistant append
are inside the lock.  The trace is not a serial execution of either
turn-order. -/
theorem context_ops_interleave_trace :
    run init_state
        [false, true, true, false, false, false, false, false, false, false,
         true, true, true, true, true, true]
      = some (⟨8, 8, none⟩,
        [(false, .saveUser), (true, .saveUser), (true, .getCtx),
         (false, .getCtx), (false, .getRep), (false, .acq),
         (false, .callStart), (false, .callEnd), (false, .saveAssist),
         (false, .rel), (true, .getRep), (true, .acq), (true, .callStart),
         (true, .callEnd), (true, .saveAssist), (true, .rel)])
    ∧ ([(false, TurnEv.saveUser), (true, .saveUser), (true, .getCtx),
         (false, .getCtx), (false, .getRep), (false, .acq),
         (false, .callStart), (false, .callEnd), (false, .saveAssist),
         (false, .rel), (true, .getRep), (true, .acq), (true, .callStart),
         (true, .callEnd), (true, .saveAssist), (true, .rel)].map Prod.fst
        ≠ List.replicate 8 false ++ List.replicate 8 true)
    ∧ ([(false, TurnEv.saveUser), (true, .saveUser), (true, .getCtx),
         (false, .getCtx), (false, .getRep), (false, .acq),
         (false, .callStart), (false, .callEnd), (false, .saveAssist),
         (false, .rel), (true, .getRep), (true, .acq), (true, .callStart),
         (true, .callEnd), (true, .saveAssist), (true, .rel)].map Prod.fst
        ≠ List.replicate 8 true ++ List.replicate 8 false) := by
  decide
